import Mathlib

/-!
Shallow embedding of the omon Tor stream monitor (src/omon.go): the
event-line classifier (`eventLoop`), the stream-status handler
(`handleStreamEvent`), the bandwidth handler (`handleStreamBWEvent`),
the finalizer (`finalizeStream`), the periodic reporter
(`periodicStats`) and the reply validation of the setup sequence
(`Start`).

Modelling conventions:
* The registry `m.streams : map[string]*StreamInfo` is an association
  list `List (String × StreamInfo)`; insertion conses, `delete` removes
  the key, record mutation through the pointer is a functional update
  of the stored value.
* Go `int64` arithmetic on byte counters wraps on overflow; additions
  of parsed bandwidth values go through `wrap64`.  The `int` stream
  counters only ever change by `±1` per event, so they are modelled as
  unbounded `Int` (their overflow is unreachable within the claims
  considered and not load-bearing).
* Time stamps (`StartTime`, `EndTime`, durations) and the float
  megabyte rendering in the report line are presentation-only and are
  omitted from the model; all counter and registry behaviour is kept.
* Console and audit-log emissions are returned as a list of structured
  `MonitorOutput` values (both sinks receive the same events).
-/

/-- Whitespace test used by Go `strings.Fields` / `strings.TrimSpace`
(`unicode.IsSpace`): ASCII space characters plus the Unicode
White_Space code points. -/
def goIsSpace (c : Char) : Bool :=
  c.toNat = 32 || c.toNat = 9 || c.toNat = 10 || c.toNat = 11 ||
  c.toNat = 12 || c.toNat = 13 || c.toNat = 0x85 || c.toNat = 0xA0 ||
  c.toNat = 0x1680 || (0x2000 ≤ c.toNat && c.toNat ≤ 0x200A) ||
  c.toNat = 0x2028 || c.toNat = 0x2029 || c.toNat = 0x202F ||
  c.toNat = 0x205F || c.toNat = 0x3000

/-- Drop leading whitespace from a character list. -/
def dropLeadingSpace : List Char → List Char
  | [] => []
  | c :: rest => if goIsSpace c then dropLeadingSpace rest else c :: rest

/-- Go `strings.TrimSpace`: remove leading and trailing whitespace. -/
def trimSpace (s : String) : String :=
  String.mk ((dropLeadingSpace ((dropLeadingSpace s.data).reverse)).reverse)

/-- Accumulator worker for `goFields` (current field collected in
reverse in `acc`). -/
def fieldsAux : List Char → List Char → List String
  | [], acc => if acc.isEmpty then [] else [String.mk acc.reverse]
  | c :: rest, acc =>
    if goIsSpace c then
      if acc.isEmpty then fieldsAux rest []
      else String.mk acc.reverse :: fieldsAux rest []
    else fieldsAux rest (c :: acc)

/-- Go `strings.Fields`: split around maximal runs of whitespace. -/
def goFields (s : String) : List String :=
  fieldsAux s.data []

/-- List version of Go `strings.HasPrefix`. -/
def listStartsWith : List Char → List Char → Bool
  | _, [] => true
  | [], _ :: _ => false
  | c :: cs, d :: ds => c = d && listStartsWith cs ds

/-- Go `strings.HasPrefix s pre`. -/
def strStartsWith (s pre : String) : Bool :=
  listStartsWith s.data pre.data

/-- List version of Go `strings.Contains` (pattern occurs as a
contiguous subsequence). -/
def listContainsSeq : List Char → List Char → Bool
  | [], pat => listStartsWith [] pat
  | c :: rest, pat => listStartsWith (c :: rest) pat || listContainsSeq rest pat

/-- Go `strings.Contains s sub`. -/
def strContainsSub (s sub : String) : Bool :=
  listContainsSeq s.data sub.data

/-- Character membership, `strings.Contains s "="` specialised to a
single-character pattern. -/
def listContainsChar : List Char → Char → Bool
  | [], _ => false
  | c :: rest, d => c = d || listContainsChar rest d

/-- Go `strings.Contains s (String.singleton c)`. -/
def strContainsChar (s : String) (c : Char) : Bool :=
  listContainsChar s.data c

/-- Go `strings.TrimPrefix s pre` when the prefix is known present:
drop its length. -/
def strDrop (s : String) (n : Nat) : String :=
  String.mk (s.data.drop n)

/-- Decimal digit test for `strconv.ParseInt` (base 10). -/
def isDigitChar (c : Char) : Bool :=
  48 ≤ c.toNat && c.toNat ≤ 57

/-- Accumulate the decimal value of a digit string; `none` on the
first non-digit character (Go `ErrSyntax`). -/
def digitsValAux : List Char → Nat → Option Nat
  | [], acc => some acc
  | c :: rest, acc =>
    if isDigitChar c then digitsValAux rest (acc * 10 + (c.toNat - 48))
    else none

/-- Magnitude of a base-10 numeral; `none` when empty or containing a
non-digit. -/
def digitsVal : List Char → Option Nat
  | [] => none
  | c :: rest => digitsValAux (c :: rest) 0

/-- Largest `int64` value. -/
def int64Max : Int := 2 ^ 63 - 1

/-- Smallest `int64` value. -/
def int64Min : Int := -(2 ^ 63)

/-- Go `strconv.ParseInt` range behaviour for a non-negative numeral:
out-of-range values clamp to `int64Max` (returned with `ErrRange`,
which the caller discards). -/
def clampPos (n : Nat) : Int :=
  if (n : Int) ≤ int64Max then (n : Int) else int64Max

/-- Go `strconv.ParseInt` range behaviour for a negated numeral:
out-of-range values clamp to `int64Min`. -/
def clampNeg (n : Nat) : Int :=
  if (n : Int) ≤ 2 ^ 63 then -(n : Int) else int64Min

/-- Go `strconv.ParseInt(s, 10, 64)`: `some value` when the string is
syntactically a signed decimal numeral (value already range-clamped),
`none` on a syntax error. -/
def goParseInt64Core (s : String) : Option Int :=
  match s.data with
  | [] => none
  | '+' :: rest => (digitsVal rest).map clampPos
  | '-' :: rest => (digitsVal rest).map clampNeg
  | cs => (digitsVal cs).map clampPos

/-- The value the code actually uses: `sent, _ := strconv.ParseInt(...)`
discards the error, so a syntax error yields the zero value. -/
def goParseInt64 (s : String) : Int :=
  (goParseInt64Core s).getD 0

/-- True when `strconv.ParseInt(s, 10, 64)` reports no syntax error. -/
def intSyntaxOk (s : String) : Bool :=
  (goParseInt64Core s).isSome

/-- Two's-complement wrap of Go `int64` addition results. -/
def wrap64 (x : Int) : Int :=
  (x + 2 ^ 63) % 2 ^ 64 - 2 ^ 63

/-- Per-stream record (`StreamInfo`); time stamps omitted (see module
comment). -/
structure StreamInfo where
  id : String
  target : String
  bytesSent : Int
  bytesReceived : Int
  closed : Bool
deriving Repr, DecidableEq

/-- Mutable state of `TorMonitor` relevant to event handling: the
registry, the lifetime counter map `stats`, the windowed counter map
`report`, and the two scalar counters. -/
structure MonitorState where
  streams : List (String × StreamInfo)
  statsTotalSent : Int
  statsTotalReceived : Int
  statsStreamsTotal : Int
  reportTotalSent : Int
  reportTotalReceived : Int
  reportStreamsTotal : Int
  activeStreams : Int
  totalStreams : Int
deriving Repr, DecidableEq

/-- State produced by `NewTorMonitor`: empty registry, all counters
zero. -/
def initMonitor : MonitorState :=
  { streams := []
    statsTotalSent := 0
    statsTotalReceived := 0
    statsStreamsTotal := 0
    reportTotalSent := 0
    reportTotalReceived := 0
    reportStreamsTotal := 0
    activeStreams := 0
    totalStreams := 0 }

/-- Console/audit-log emissions (both sinks receive the same events). -/
inductive MonitorOutput
  | statusLine (id status target : String)
  | finishSummary (id : String) (sent rcvd : Int) (target reason : String)
  | totalsLine (sent rcvd : Int) (total : Int) (active : Int)
  | reportLine (sent rcvd opened : Int) (active : Int)
deriving Repr, DecidableEq

/-- Map lookup `m.streams[id]`. -/
def findStream : List (String × StreamInfo) → String → Option StreamInfo
  | [], _ => none
  | p :: rest, id => if p.fst = id then some p.snd else findStream rest id

/-- Store an updated record under its key (mutation through the map's
pointer in Go). -/
def setStream : List (String × StreamInfo) → String → StreamInfo → List (String × StreamInfo)
  | [], _, _ => []
  | p :: rest, id, v => (if p.fst = id then (p.fst, v) else p) :: setStream rest id v

/-- Go `delete(m.streams, id)`. -/
def eraseStream : List (String × StreamInfo) → String → List (String × StreamInfo)
  | [], _ => []
  | p :: rest, id => if p.fst = id then eraseStream rest id else p :: eraseStream rest id

/-- Keys of the registry. -/
def streamKeys (l : List (String × StreamInfo)) : List String :=
  l.map Prod.fst

/-- Record allocated on first sight of an id:
`&StreamInfo{ID: id, StartTime: time.Now()}` (all other fields zero). -/
def freshStream (id : String) : StreamInfo :=
  { id := id, target := "", bytesSent := 0, bytesReceived := 0, closed := false }

/-- The `if _, exists := m.streams[id]; !exists` block of
`handleStreamEvent`: allocate the record and bump the opened
counters. -/
def ensureStream (st : MonitorState) (id : String) : MonitorState :=
  match findStream st.streams id with
  | some _ => st
  | none =>
    { st with
        streams := (id, freshStream id) :: st.streams
        statsStreamsTotal := st.statsStreamsTotal + 1
        reportStreamsTotal := st.reportStreamsTotal + 1
        activeStreams := st.activeStreams + 1
        totalStreams := st.totalStreams + 1 }

/-- Token filter of the target-update loop:
`!strings.Contains(p, "=") && p != "-"`. -/
def isTargetCandidate (p : String) : Bool :=
  !(strContainsChar p '=') && p ≠ "-"

/-- The target-update loop `for i := 4; i < len(parts); i++` applied to
the tokens from index 4 on (last candidate wins). -/
def updateTarget (init : String) (toks : List String) : String :=
  toks.foldl (fun t p => if isTargetCandidate p then p else t) init

/-- The `REASON=` scan of the terminal branch: last `REASON=` token
wins, default sentinel "NONE". -/
def findReason (parts : List String) : String :=
  parts.foldl (fun r p => if strStartsWith p "REASON=" then strDrop p 7 else r) "NONE"

/-- Reason displayed by `finalizeStream`: raw reason `DONE` maps to
`END`, everything else passes through. -/
def displayReason (r : String) : String :=
  if r = "DONE" then "END" else r

/-- Lines printed by `finalizeStream`: the per-stream summary and the
running-totals line (reading the state after the active-count
decrement). -/
def finalizeOutputs (st : MonitorState) (s : StreamInfo) (reason : String) : List MonitorOutput :=
  [MonitorOutput.finishSummary s.id s.bytesSent s.bytesReceived s.target (displayReason reason),
   MonitorOutput.totalsLine st.statsTotalSent st.statsTotalReceived st.totalStreams st.activeStreams]

/-- Terminal branch of `handleStreamEvent` (guard `!s.Closed` already
checked by the caller): set `Closed`, decrement the active count, emit
the finalization lines, delete the record. -/
def closeStream (st : MonitorState) (id : String) (s1 : StreamInfo) (parts : List String) :
    MonitorState × List MonitorOutput :=
  let s2 := { s1 with closed := true }
  let st3 := { st with
                 streams := setStream st.streams id s2
                 activeStreams := st.activeStreams - 1 }
  ({ st3 with streams := eraseStream st3.streams id },
   finalizeOutputs st3 s2 (findReason parts))

/-- `handleStreamEvent`, acting on the already-tokenised line. -/
def handleStreamParts (st : MonitorState) (parts : List String) :
    MonitorState × List MonitorOutput :=
  if parts.length < 4 then (st, [])
  else
    let id := parts.getD 2 ""
    let status := parts.getD 3 ""
    let st1 := ensureStream st id
    let s0 := (findStream st1.streams id).getD (freshStream id)
    let s1 := { s0 with target := updateTarget s0.target (parts.drop 4) }
    let st2 := { st1 with streams := setStream st1.streams id s1 }
    if (status = "CLOSED" ∨ status = "FAILED") ∧ s1.closed = false then
      let r := closeStream st2 id s1 parts
      (r.1, MonitorOutput.statusLine id status s1.target :: r.2)
    else
      (st2, [MonitorOutput.statusLine id status s1.target])

/-- `handleStreamBWEvent`, acting on the already-tokenised line. -/
def handleStreamBWParts (st : MonitorState) (parts : List String) : MonitorState :=
  if parts.length < 5 then st
  else
    let id := parts.getD 2 ""
    let sent := goParseInt64 (parts.getD 3 "")
    let rcvd := goParseInt64 (parts.getD 4 "")
    match findStream st.streams id with
    | none => st
    | some s =>
      { st with
          streams := setStream st.streams id
            { s with
                bytesSent := wrap64 (s.bytesSent + sent)
                bytesReceived := wrap64 (s.bytesReceived + rcvd) }
          statsTotalSent := wrap64 (st.statsTotalSent + sent)
          statsTotalReceived := wrap64 (st.statsTotalReceived + rcvd)
          reportTotalSent := wrap64 (st.reportTotalSent + sent)
          reportTotalReceived := wrap64 (st.reportTotalReceived + rcvd) }

/-- Classification of one trimmed line by the `eventLoop` if-chain. -/
inductive LineClass
  | statusEvent
  | bandwidthEvent
  | ignoredLine
deriving Repr, DecidableEq

/-- The `eventLoop` dispatch conditions on a trimmed line. -/
def classifyLine (line : String) : LineClass :=
  if strStartsWith line "650 STREAM " && !(strContainsSub line "STREAM_BW") then
    LineClass.statusEvent
  else if strStartsWith line "650 STREAM_BW" then
    LineClass.bandwidthEvent
  else
    LineClass.ignoredLine

/-- One iteration of `eventLoop` on a raw line: trim, classify,
dispatch. -/
def processLine (st : MonitorState) (raw : String) : MonitorState × List MonitorOutput :=
  match classifyLine (trimSpace raw) with
  | LineClass.statusEvent => handleStreamParts st (goFields (trimSpace raw))
  | LineClass.bandwidthEvent => (handleStreamBWParts st (goFields (trimSpace raw)), [])
  | LineClass.ignoredLine => (st, [])

/-- Run the event loop over a finite list of raw lines, collecting all
emissions. -/
def runLines (st : MonitorState) (lines : List String) : MonitorState × List MonitorOutput :=
  List.foldl
    (fun acc l =>
      let r := processLine acc.fst l
      (r.fst, acc.snd ++ r.snd))
    (st, []) lines

/-- One tick of `periodicStats`: emit the windowed report, then zero
the three windowed counters (the float megabyte rendering of the same
byte values is presentation-only and omitted). -/
def periodicStats (st : MonitorState) : MonitorState × MonitorOutput :=
  ({ st with
       reportTotalSent := 0
       reportTotalReceived := 0
       reportStreamsTotal := 0 },
   MonitorOutput.reportLine st.reportTotalSent st.reportTotalReceived
     st.reportStreamsTotal st.activeStreams)

/-- Result of the setup sequence of `Start`, as a function of the two
reply lines. -/
inductive StartOutcome
  | started
  | authFailed (resp : String)
deriving Repr, DecidableEq

/-- Reply validation performed by `Start`: the AUTHENTICATE reply must
contain "250 OK"; the SETEVENTS reply is read and discarded without
any check (the second argument is deliberately unused, mirroring
`m.reader.ReadString` with the result dropped). -/
def startSetup (authReply subscribeReply : String) : StartOutcome :=
  if strContainsSub authReply "250 OK" then StartOutcome.started
  else StartOutcome.authFailed (trimSpace authReply)

/-- Number of finalization summaries among the emissions. -/
def countFinish : List MonitorOutput → Nat
  | [] => 0
  | MonitorOutput.finishSummary _ _ _ _ _ :: rest => countFinish rest + 1
  | _ :: rest => countFinish rest

/-- Invariant relating the scalar active-stream counter to the
registry: distinct keys and `activeStreams = |streams|`. -/
def RegistryInv (st : MonitorState) : Prop :=
  (streamKeys st.streams).Nodup ∧ st.activeStreams = (st.streams.length : Int)

/-- Specification-side reading of the target rule: the last token that
contains no '=' and is not "-". -/
def lastCandidate (toks : List String) : Option String :=
  (toks.filter isTargetCandidate).getLast?

/-! ### Association-list lemmas for the registry -/

theorem findStream_none_iff (l : List (String × StreamInfo)) (id : String) :
    findStream l id = none ↔ id ∉ streamKeys l := by
  induction l with
  | nil => simp [findStream, streamKeys]
  | cons p rest ih =>
    by_cases hp : p.fst = id
    · simp [findStream, streamKeys, hp]
    · simp [findStream, streamKeys, hp, ih, Ne.symm hp]

theorem findStream_cons_self (id : String) (s : StreamInfo)
    (l : List (String × StreamInfo)) :
    findStream ((id, s) :: l) id = some s := by
  simp [findStream]

theorem streamKeys_setStream (l : List (String × StreamInfo)) (id : String) (v : StreamInfo) :
    streamKeys (setStream l id v) = streamKeys l := by
  induction l with
  | nil => rfl
  | cons p rest ih =>
    by_cases hp : p.fst = id <;> simp [setStream, streamKeys, hp, ih] <;>
      simpa [streamKeys] using ih

theorem length_setStream (l : List (String × StreamInfo)) (id : String) (v : StreamInfo) :
    (setStream l id v).length = l.length := by
  induction l with
  | nil => rfl
  | cons p rest ih => by_cases hp : p.fst = id <;> simp [setStream, hp, ih]

theorem setStream_not_mem (l : List (String × StreamInfo)) (id : String) (v : StreamInfo)
    (h : id ∉ streamKeys l) : setStream l id v = l := by
  induction l with
  | nil => rfl
  | cons p rest ih =>
    simp only [streamKeys, List.map_cons, List.mem_cons] at h
    push_neg at h
    simp [setStream, Ne.symm h.1, ih (by simpa [streamKeys] using h.2)]

theorem eraseStream_not_mem (l : List (String × StreamInfo)) (id : String)
    (h : id ∉ streamKeys l) : eraseStream l id = l := by
  induction l with
  | nil => rfl
  | cons p rest ih =>
    simp only [streamKeys, List.map_cons, List.mem_cons] at h
    push_neg at h
    simp [eraseStream, Ne.symm h.1, ih (by simpa [streamKeys] using h.2)]

theorem eraseStream_sublist (l : List (String × StreamInfo)) (id : String) :
    (eraseStream l id).Sublist l := by
  induction l with
  | nil => simp [eraseStream]
  | cons p rest ih =>
    by_cases hp : p.fst = id
    · simpa [eraseStream, hp] using ih.cons p
    · simpa [eraseStream, hp] using ih.cons₂ p

theorem nodup_eraseStream (l : List (String × StreamInfo)) (id : String)
    (h : (streamKeys l).Nodup) : (streamKeys (eraseStream l id)).Nodup :=
  List.Nodup.sublist (List.Sublist.map Prod.fst (eraseStream_sublist l id)) h

theorem length_eraseStream (l : List (String × StreamInfo)) (id : String)
    (hnd : (streamKeys l).Nodup) (hmem : id ∈ streamKeys l) :
    (eraseStream l id).length + 1 = l.length := by
  induction l with
  | nil => simp [streamKeys] at hmem
  | cons p rest ih =>
    simp only [streamKeys, List.map_cons, List.nodup_cons] at hnd
    by_cases hp : p.fst = id
    · have hnot : id ∉ streamKeys rest := by
        simpa [streamKeys, hp] using hnd.1
      simp [eraseStream, hp, eraseStream_not_mem rest id hnot]
    · have hmem' : id ∈ streamKeys rest := by
        rcases (by simpa [streamKeys] using hmem : id = p.fst ∨ id ∈ streamKeys rest) with h | h
        · exact absurd h.symm hp
        · exact h
      simp [eraseStream, hp, ih (by simpa [streamKeys] using hnd.2) hmem']

theorem findStream_setStream (l : List (String × StreamInfo)) (id : String)
    (v s : StreamInfo) (h : findStream l id = some s) :
    findStream (setStream l id v) id = some v := by
  induction l with
  | nil => simp [findStream] at h
  | cons p rest ih =>
    by_cases hp : p.fst = id
    · simp [setStream, findStream, hp]
    · simp only [findStream, hp, if_false] at h
      simp [setStream, findStream, hp, ih h]

theorem findStream_mem_keys (l : List (String × StreamInfo)) (id : String)
    (s : StreamInfo) (h : findStream l id = some s) : id ∈ streamKeys l := by
  by_contra hc
  rw [(findStream_none_iff l id).mpr hc] at h
  exact Option.noConfusion h

theorem setStream_cons_self (id : String) (s v : StreamInfo)
    (l : List (String × StreamInfo)) :
    setStream ((id, s) :: l) id v = (id, v) :: setStream l id v := by
  simp [setStream]

theorem eraseStream_cons_self (id : String) (s : StreamInfo)
    (l : List (String × StreamInfo)) :
    eraseStream ((id, s) :: l) id = eraseStream l id := by
  simp [eraseStream]

/-! ### Behaviour of the handler stages -/

theorem wrap64_eq_self (x : Int) (h1 : -(2 ^ 63) ≤ x) (h2 : x ≤ 2 ^ 63 - 1) :
    wrap64 x = x := by
  unfold wrap64
  have h0 : (0 : Int) ≤ x + 2 ^ 63 := by omega
  have hlt : x + 2 ^ 63 < 2 ^ 64 := by omega
  rw [Int.emod_eq_of_lt h0 hlt]
  omega

theorem ensureStream_found (st : MonitorState) (id : String) (s : StreamInfo)
    (h : findStream st.streams id = some s) : ensureStream st id = st := by
  unfold ensureStream
  rw [h]

theorem ensureStream_absent (st : MonitorState) (id : String)
    (h : findStream st.streams id = none) :
    ensureStream st id =
      { st with
          streams := (id, freshStream id) :: st.streams
          statsStreamsTotal := st.statsStreamsTotal + 1
          reportStreamsTotal := st.reportStreamsTotal + 1
          activeStreams := st.activeStreams + 1
          totalStreams := st.totalStreams + 1 } := by
  unfold ensureStream
  rw [h]

theorem findStream_ensureStream (st : MonitorState) (id : String) :
    ∃ s, findStream (ensureStream st id).streams id = some s := by
  cases h : findStream st.streams id with
  | none => exact ⟨freshStream id, by rw [ensureStream_absent st id h]; exact findStream_cons_self id _ st.streams⟩
  | some s => exact ⟨s, by rw [ensureStream_found st id s h]; exact h⟩

theorem registryInv_ensureStream (st : MonitorState) (id : String)
    (h : RegistryInv st) : RegistryInv (ensureStream st id) := by
  cases hf : findStream st.streams id with
  | some s => rw [ensureStream_found st id s hf]; exact h
  | none =>
    rw [ensureStream_absent st id hf]
    refine ⟨?_, ?_⟩
    · have hkeys : streamKeys ((id, freshStream id) :: st.streams) =
          id :: streamKeys st.streams := rfl
      rw [hkeys, List.nodup_cons]
      exact ⟨(findStream_none_iff st.streams id).mp hf, h.1⟩
    · simp only [List.length_cons]
      have := h.2
      push_cast
      omega

theorem registryInv_closeStream (st : MonitorState) (id : String) (s1 : StreamInfo)
    (parts : List String) (s : StreamInfo) (hfind : findStream st.streams id = some s)
    (h : RegistryInv st) : RegistryInv (closeStream st id s1 parts).1 := by
  have hnd : (streamKeys (setStream st.streams id { s1 with closed := true })).Nodup := by
    rw [streamKeys_setStream]; exact h.1
  have hmem : id ∈ streamKeys (setStream st.streams id { s1 with closed := true }) := by
    rw [streamKeys_setStream]; exact findStream_mem_keys _ _ _ hfind
  have hlen := length_eraseStream _ id hnd hmem
  rw [length_setStream] at hlen
  have hact := h.2
  refine ⟨nodup_eraseStream _ id hnd, ?_⟩
  show st.activeStreams - 1 =
    ((eraseStream (setStream st.streams id { s1 with closed := true }) id).length : Int)
  omega

theorem registryInv_setStreams (st : MonitorState) (id : String) (v : StreamInfo)
    (h : RegistryInv st) : RegistryInv { st with streams := setStream st.streams id v } := by
  have h1 : (streamKeys (setStream st.streams id v)).Nodup := by
    rw [streamKeys_setStream]; exact h.1
  have h2 : st.activeStreams = ((setStream st.streams id v).length : Int) := by
    rw [length_setStream]; exact h.2
  exact ⟨h1, h2⟩

theorem registryInv_handleStreamParts (st : MonitorState) (parts : List String)
    (h : RegistryInv st) : RegistryInv (handleStreamParts st parts).1 := by
  unfold handleStreamParts
  by_cases hlen : parts.length < 4
  · simpa [hlen] using h
  · obtain ⟨s0, hs0⟩ := findStream_ensureStream st (parts.getD 2 "")
    have h1 : RegistryInv (ensureStream st (parts.getD 2 "")) :=
      registryInv_ensureStream st _ h
    have h2 : RegistryInv
        { ensureStream st (parts.getD 2 "") with
            streams := setStream (ensureStream st (parts.getD 2 "")).streams (parts.getD 2 "")
              { s0 with target := updateTarget s0.target (parts.drop 4) } } :=
      registryInv_setStreams _ _ _ h1
    simp only [hlen, if_false, hs0, Option.getD_some]
    split
    · have hfind2 : findStream (setStream (ensureStream st (parts.getD 2 "")).streams
          (parts.getD 2 "") { s0 with target := updateTarget s0.target (parts.drop 4) })
          (parts.getD 2 "") =
          some { s0 with target := updateTarget s0.target (parts.drop 4) } :=
        findStream_setStream _ _ _ _ hs0
      exact registryInv_closeStream
        { ensureStream st (parts.getD 2 "") with
            streams := setStream (ensureStream st (parts.getD 2 "")).streams (parts.getD 2 "")
              { s0 with target := updateTarget s0.target (parts.drop 4) } }
        (parts.getD 2 "")
        { s0 with target := updateTarget s0.target (parts.drop 4) }
        parts
        { s0 with target := updateTarget s0.target (parts.drop 4) }
        hfind2 h2
    · exact h2

theorem registryInv_handleStreamBWParts (st : MonitorState) (parts : List String)
    (h : RegistryInv st) : RegistryInv (handleStreamBWParts st parts) := by
  unfold handleStreamBWParts
  by_cases hlen : parts.length < 5
  · simpa [hlen] using h
  · simp only [hlen, if_false]
    cases hf : findStream st.streams (parts.getD 2 "") with
    | none => exact h
    | some s =>
      exact registryInv_setStreams st (parts.getD 2 "") _ h

theorem registryInv_processLine (st : MonitorState) (raw : String)
    (h : RegistryInv st) : RegistryInv (processLine st raw).1 := by
  unfold processLine
  cases classifyLine (trimSpace raw) with
  | statusEvent => exact registryInv_handleStreamParts st _ h
  | bandwidthEvent => exact registryInv_handleStreamBWParts st _ h
  | ignoredLine => exact h

theorem registryInv_runLines (st : MonitorState) (acc : List MonitorOutput)
    (lines : List String) (h : RegistryInv st) :
    RegistryInv (List.foldl
      (fun acc l =>
        let r := processLine acc.fst l
        (r.fst, acc.snd ++ r.snd))
      (st, acc) lines).1 := by
  induction lines generalizing st acc with
  | nil => exact h
  | cons l rest ih =>
    simp only [List.foldl_cons]
    exact ih (processLine st l).1 _ (registryInv_processLine st l h)

theorem registryInv_init : RegistryInv initMonitor := by
  constructor <;> simp [initMonitor, streamKeys]

theorem handleStreamParts_terminal_absent (st : MonitorState) (parts : List String)
    (hlen : ¬ parts.length < 4)
    (hterm : parts.getD 3 "" = "CLOSED" ∨ parts.getD 3 "" = "FAILED")
    (habs : findStream st.streams (parts.getD 2 "") = none) :
    handleStreamParts st parts =
      ({ st with
           statsStreamsTotal := st.statsStreamsTotal + 1
           reportStreamsTotal := st.reportStreamsTotal + 1
           totalStreams := st.totalStreams + 1 },
       [MonitorOutput.statusLine (parts.getD 2 "") (parts.getD 3 "")
          (updateTarget "" (parts.drop 4)),
        MonitorOutput.finishSummary (parts.getD 2 "") 0 0
          (updateTarget "" (parts.drop 4)) (displayReason (findReason parts)),
        MonitorOutput.totalsLine st.statsTotalSent st.statsTotalReceived
          (st.totalStreams + 1) st.activeStreams]) := by
  have hid : (parts.getD 2 "") ∉ streamKeys st.streams := (findStream_none_iff _ _).mp habs
  unfold handleStreamParts
  simp only [hlen, if_false, ensureStream_absent st _ habs, findStream_cons_self,
    Option.getD_some]
  rw [if_pos]
  · unfold closeStream finalizeOutputs
    simp only [freshStream, setStream_cons_self, setStream_not_mem _ _ _ hid,
      eraseStream_cons_self, eraseStream_not_mem _ _ hid, add_sub_cancel_right,
      Prod.mk.injEq]
  · exact ⟨hterm, rfl⟩

theorem getLast?_cons_exists (q : String) (qs : List String) :
    ∃ x, (q :: qs).getLast? = some x := by
  induction qs generalizing q with
  | nil => exact ⟨q, rfl⟩
  | cons r rs ih => rw [List.getLast?_cons_cons]; exact ih r

theorem updateTarget_eq_lastCandidate (toks : List String) (init : String) :
    updateTarget init toks = (lastCandidate toks).getD init := by
  induction toks generalizing init with
  | nil => rfl
  | cons p rest ih =>
    by_cases hp : isTargetCandidate p
    · have h1 : updateTarget init (p :: rest) = updateTarget p rest := by
        simp [updateTarget, hp]
      rw [h1, ih p]
      unfold lastCandidate
      have h2 : (p :: rest).filter isTargetCandidate =
          p :: rest.filter isTargetCandidate := by
        simp [List.filter_cons, hp]
      rw [h2]
      cases hf : rest.filter isTargetCandidate with
      | nil => simp [lastCandidate, hf]
      | cons q qs =>
        obtain ⟨x, hx⟩ := getLast?_cons_exists q qs
        simp [lastCandidate, hf, hx]
    · have h1 : updateTarget init (p :: rest) = updateTarget init rest := by
        simp [updateTarget, hp]
      have h2 : (p :: rest).filter isTargetCandidate = rest.filter isTargetCandidate := by
        simp [List.filter_cons, hp]
      rw [h1, ih init]
      unfold lastCandidate
      rw [h2]

theorem listStartsWith_append_right (p q s : List Char)
    (h : listStartsWith s (p ++ q) = true) : listContainsSeq s q = true := by
  induction p generalizing s with
  | nil =>
    simp only [List.nil_append] at h
    cases s with
    | nil => simpa [listContainsSeq] using h
    | cons c rest => simp [listContainsSeq, h]
  | cons d ds ih =>
    cases s with
    | nil => simp [listStartsWith] at h
    | cons c rest =>
      simp only [List.cons_append, listStartsWith, Bool.and_eq_true] at h
      have := ih rest h.2
      simp [listContainsSeq, this]

theorem bwPrefix_contains (line : String)
    (h : strStartsWith line "650 STREAM_BW" = true) :
    strContainsSub line "STREAM_BW" = true := by
  have hsplit : ("650 STREAM_BW").data = ("650 ").data ++ ("STREAM_BW").data := by decide
  unfold strStartsWith at h
  rw [hsplit] at h
  exact listStartsWith_append_right _ _ _ h

theorem handleStreamBWParts_found (st : MonitorState) (parts : List String) (s : StreamInfo)
    (hlen : ¬ parts.length < 5)
    (hfind : findStream st.streams (parts.getD 2 "") = some s) :
    handleStreamBWParts st parts =
      { st with
          streams := setStream st.streams (parts.getD 2 "")
            { s with
                bytesSent := wrap64 (s.bytesSent + goParseInt64 (parts.getD 3 ""))
                bytesReceived := wrap64 (s.bytesReceived + goParseInt64 (parts.getD 4 "")) }
          statsTotalSent := wrap64 (st.statsTotalSent + goParseInt64 (parts.getD 3 ""))
          statsTotalReceived := wrap64 (st.statsTotalReceived + goParseInt64 (parts.getD 4 ""))
          reportTotalSent := wrap64 (st.reportTotalSent + goParseInt64 (parts.getD 3 ""))
          reportTotalReceived := wrap64 (st.reportTotalReceived + goParseInt64 (parts.getD 4 "")) } := by
  unfold handleStreamBWParts
  simp only [hlen, if_false, hfind]

/-! ### Claim theorems -/

/-- C1 counterexample: delivering CLOSED twice for id "7" from the
initial state produces TWO finalization outputs (not one) and bumps
the lifetime opened counters by two — the second terminal notification
is not a no-op on the counters. -/
theorem c1_two_closed_two_finalizations :
    countFinish (runLines initMonitor ["650 STREAM 7 CLOSED", "650 STREAM 7 CLOSED"]).2 = 2 ∧
    (runLines initMonitor ["650 STREAM 7 CLOSED", "650 STREAM 7 CLOSED"]).1.totalStreams = 2 ∧
    (runLines initMonitor ["650 STREAM 7 CLOSED", "650 STREAM 7 CLOSED"]).1.statsStreamsTotal = 2 ∧
    (runLines initMonitor ["650 STREAM 7 CLOSED", "650 STREAM 7 CLOSED"]).1.activeStreams = 0 := by
  decide

/-- C1 (amended): a terminal notification for an id absent from the
registry (in particular a duplicate CLOSED after finalization) is
treated as a fresh stream: each of the two CLOSED events produces
exactly one finalization output and one removal, the registry ends
without the id, `activeStreams` returns to its pre-event value, and
the lifetime opened counter grows by two. -/
theorem c1_amended_duplicate_terminal_reopens (st : MonitorState) (id : String)
    (habs : findStream st.streams id = none) :
    countFinish (handleStreamParts st ["650", "STREAM", id, "CLOSED"]).2 = 1 ∧
    countFinish (handleStreamParts (handleStreamParts st ["650", "STREAM", id, "CLOSED"]).1
        ["650", "STREAM", id, "CLOSED"]).2 = 1 ∧
    (handleStreamParts (handleStreamParts st ["650", "STREAM", id, "CLOSED"]).1
        ["650", "STREAM", id, "CLOSED"]).1.streams = st.streams ∧
    (handleStreamParts (handleStreamParts st ["650", "STREAM", id, "CLOSED"]).1
        ["650", "STREAM", id, "CLOSED"]).1.activeStreams = st.activeStreams ∧
    (handleStreamParts (handleStreamParts st ["650", "STREAM", id, "CLOSED"]).1
        ["650", "STREAM", id, "CLOSED"]).1.totalStreams = st.totalStreams + 2 := by
  have e1 := handleStreamParts_terminal_absent st ["650", "STREAM", id, "CLOSED"]
    (by simp) (Or.inl rfl) habs
  rw [e1]
  dsimp only
  have e2 := handleStreamParts_terminal_absent
    { st with
        statsStreamsTotal := st.statsStreamsTotal + 1
        reportStreamsTotal := st.reportStreamsTotal + 1
        totalStreams := st.totalStreams + 1 }
    ["650", "STREAM", id, "CLOSED"] (by simp) (Or.inl rfl) habs
  rw [e2]
  dsimp only
  refine ⟨?_, ?_, rfl, rfl, ?_⟩
  · simp [countFinish]
  · simp [countFinish]
  · omega

/-- C1 amended witness at id "7" from the initial state. -/
theorem c1_amended_witness :
    countFinish (handleStreamParts initMonitor ["650", "STREAM", "7", "CLOSED"]).2 = 1 ∧
    countFinish (handleStreamParts
        (handleStreamParts initMonitor ["650", "STREAM", "7", "CLOSED"]).1
        ["650", "STREAM", "7", "CLOSED"]).2 = 1 ∧
    (handleStreamParts (handleStreamParts initMonitor ["650", "STREAM", "7", "CLOSED"]).1
        ["650", "STREAM", "7", "CLOSED"]).1.streams = initMonitor.streams ∧
    (handleStreamParts (handleStreamParts initMonitor ["650", "STREAM", "7", "CLOSED"]).1
        ["650", "STREAM", "7", "CLOSED"]).1.activeStreams = initMonitor.activeStreams ∧
    (handleStreamParts (handleStreamParts initMonitor ["650", "STREAM", "7", "CLOSED"]).1
        ["650", "STREAM", "7", "CLOSED"]).1.totalStreams = initMonitor.totalStreams + 2 :=
  c1_amended_duplicate_terminal_reopens initMonitor "7" (by decide)

/-- C2 counterexample: a SETEVENTS reply without "250 OK" still lets
the setup succeed — a bad reply to the subscribe command is NOT
surfaced as a setup failure. -/
theorem c2_subscribe_reply_unchecked :
    strContainsSub "515 Bad authentication" "250 OK" = false ∧
    startSetup "250 OK" "515 Bad authentication" = StartOutcome.started := by
  decide

/-- C2 (amended): the start sequence fails exactly when the
AUTHENTICATE reply lacks the literal "250 OK"; the SETEVENTS
(subscribe) reply is read and discarded without validation. -/
theorem c2_amended_auth_reply_only (authReply subscribeReply : String) :
    (startSetup authReply subscribeReply = StartOutcome.started ↔
      strContainsSub authReply "250 OK" = true) ∧
    (startSetup authReply subscribeReply = StartOutcome.authFailed (trimSpace authReply) ↔
      strContainsSub authReply "250 OK" = false) := by
  unfold startSetup
  cases h : strContainsSub authReply "250 OK" <;> simp [h]

/-- C2 amended witness: success with a failing subscribe reply. -/
theorem c2_amended_witness :
    startSetup "250 OK" "515 Bad authentication" = StartOutcome.started :=
  (c2_amended_auth_reply_only "250 OK" "515 Bad authentication").1.mpr (by decide)

/-- C3: after any finite sequence of input lines processed from the
initial state, the scalar `activeStreams` equals the number of entries
in the stream registry. -/
theorem c3_active_count_matches_registry (lines : List String) :
    (runLines initMonitor lines).1.activeStreams =
      ((runLines initMonitor lines).1.streams.length : Int) :=
  (registryInv_runLines initMonitor [] lines registryInv_init).2

/-- C4 counterexample: a bandwidth line whose sent token is the
negative numeral "-5" decreases `bytesSent` of an open stream from 0
to -5 — the added amount is not always non-negative, so the counters
are not unconditionally monotone. -/
theorem c4_negative_sample_decreases :
    ((findStream ((processLine initMonitor "650 STREAM 7 NEW").1).streams "7").getD
        (freshStream "7")).bytesSent = 0 ∧
    ((findStream ((processLine (processLine initMonitor "650 STREAM 7 NEW").1
        "650 STREAM_BW 7 -5 0").1).streams "7").getD (freshStream "7")).bytesSent = -5 := by
  decide

/-- C4 (amended): for a stream present in the registry, a bandwidth
event whose decoded sent/received values are non-negative (as all
wire-conformant samples are) leaves `bytesSent`/`bytesReceived` no
smaller, provided the running totals stay within the int64 range; so
the per-stream counters are non-decreasing between creation and
finalization for conformant inputs. -/
theorem c4_amended_nonneg_monotone (st : MonitorState) (parts : List String)
    (s : StreamInfo)
    (hfind : findStream st.streams (parts.getD 2 "") = some s)
    (hlen : ¬ parts.length < 5)
    (hsent : 0 ≤ goParseInt64 (parts.getD 3 ""))
    (hrcvd : 0 ≤ goParseInt64 (parts.getD 4 ""))
    (hs1 : -(2 ^ 63) ≤ s.bytesSent)
    (hs2 : s.bytesSent + goParseInt64 (parts.getD 3 "") ≤ 2 ^ 63 - 1)
    (hr1 : -(2 ^ 63) ≤ s.bytesReceived)
    (hr2 : s.bytesReceived + goParseInt64 (parts.getD 4 "") ≤ 2 ^ 63 - 1) :
    ∃ s', findStream (handleStreamBWParts st parts).streams (parts.getD 2 "") = some s' ∧
      s.bytesSent ≤ s'.bytesSent ∧ s.bytesReceived ≤ s'.bytesReceived := by
  rw [handleStreamBWParts_found st parts s hlen hfind]
  refine ⟨_, findStream_setStream _ _ _ _ hfind, ?_, ?_⟩
  · show s.bytesSent ≤ wrap64 (s.bytesSent + goParseInt64 (parts.getD 3 ""))
    rw [wrap64_eq_self _ (by omega) hs2]
    omega
  · show s.bytesReceived ≤ wrap64 (s.bytesReceived + goParseInt64 (parts.getD 4 ""))
    rw [wrap64_eq_self _ (by omega) hr2]
    omega

/-- C4 amended witness: the conformant sample "650 STREAM_BW 7 100 250"
on open stream "7". -/
theorem c4_amended_witness :
    ∃ s', findStream (handleStreamBWParts (processLine initMonitor "650 STREAM 7 NEW").1
        (goFields "650 STREAM_BW 7 100 250")).streams
        ((goFields "650 STREAM_BW 7 100 250").getD 2 "") = some s' ∧
      (freshStream "7").bytesSent ≤ s'.bytesSent ∧
      (freshStream "7").bytesReceived ≤ s'.bytesReceived :=
  c4_amended_nonneg_monotone _ _ (freshStream "7") (by decide) (by decide) (by decide)
    (by decide) (by decide) (by decide) (by decide) (by decide)

/-- C5: a reporter tick zeroes exactly the three windowed counters and
leaves the lifetime counters, the active count, the lifetime stream
count and the registry untouched; the emitted report carries the
pre-tick windowed values and the current active count. -/
theorem c5_tick_resets_window_only (st : MonitorState) :
    (periodicStats st).1.reportTotalSent = 0 ∧
    (periodicStats st).1.reportTotalReceived = 0 ∧
    (periodicStats st).1.reportStreamsTotal = 0 ∧
    (periodicStats st).1.statsTotalSent = st.statsTotalSent ∧
    (periodicStats st).1.statsTotalReceived = st.statsTotalReceived ∧
    (periodicStats st).1.statsStreamsTotal = st.statsStreamsTotal ∧
    (periodicStats st).1.totalStreams = st.totalStreams ∧
    (periodicStats st).1.activeStreams = st.activeStreams ∧
    (periodicStats st).1.streams = st.streams ∧
    (periodicStats st).2 = MonitorOutput.reportLine st.reportTotalSent
      st.reportTotalReceived st.reportStreamsTotal st.activeStreams :=
  ⟨rfl, rfl, rfl, rfl, rfl, rfl, rfl, rfl, rfl, rfl⟩

/-- C6 counterexample: the line "650 STREAM 7 NEW STREAM_BW" has the
status-notification form "650 STREAM <id> <STATUS> [<field> ...]"
(4 tokens, status prefix), yet the event loop ignores it because a
field token contains the substring "STREAM_BW". -/
theorem c6_status_line_with_bw_substring_ignored :
    strStartsWith "650 STREAM 7 NEW STREAM_BW" "650 STREAM " = true ∧
    4 ≤ (goFields "650 STREAM 7 NEW STREAM_BW").length ∧
    classifyLine "650 STREAM 7 NEW STREAM_BW" = LineClass.ignoredLine := by
  decide

/-- C6 (amended): a trimmed line is dispatched as a status event iff
it has the prefix "650 STREAM " and does not contain the substring
"STREAM_BW" anywhere (not merely "is not a bandwidth line"); it is a
bandwidth event iff it has the prefix "650 STREAM_BW"; any other line
is ignored.  A line of the status form is therefore dispatched as a
status event only when none of its field tokens contains
"STREAM_BW". -/
theorem c6_amended_classification (line : String) :
    (classifyLine line = LineClass.statusEvent ↔
      (strStartsWith line "650 STREAM " = true ∧
        strContainsSub line "STREAM_BW" = false)) ∧
    (classifyLine line = LineClass.bandwidthEvent ↔
      strStartsWith line "650 STREAM_BW" = true) ∧
    (classifyLine line = LineClass.ignoredLine ↔
      ((strStartsWith line "650 STREAM " = false ∨
          strContainsSub line "STREAM_BW" = true) ∧
        strStartsWith line "650 STREAM_BW" = false)) := by
  unfold classifyLine
  cases h1 : strStartsWith line "650 STREAM " <;>
    cases h2 : strContainsSub line "STREAM_BW" <;>
      cases h3 : strStartsWith line "650 STREAM_BW"
  · simp [h1, h2, h3]
  · exact absurd (bwPrefix_contains line h3) (by simp [h2])
  · simp [h1, h2, h3]
  · simp [h1, h2, h3]
  · simp [h1, h2, h3]
  · exact absurd (bwPrefix_contains line h3) (by simp [h2])
  · simp [h1, h2, h3]
  · simp [h1, h2, h3]

/-- C6 amended witness: a genuine bandwidth line classifies as
bandwidth. -/
theorem c6_amended_witness :
    classifyLine "650 STREAM_BW 7 100 250" = LineClass.bandwidthEvent :=
  (c6_amended_classification "650 STREAM_BW 7 100 250").2.1.mpr (by decide)

/-- C7: the target-update loop stores exactly the last token from
index 4 onward that contains no '=' and is not "-", keeping the prior
target when no such token exists; and Scenario 1: the line
"650 STREAM 7 NEW 0 www.example.com:443" from the empty state creates
id "7" with target "www.example.com:443" and active count 1. -/
theorem c7_target_last_candidate :
    (∀ (init : String) (toks : List String),
      updateTarget init toks = (lastCandidate toks).getD init) ∧
    findStream ((processLine initMonitor
        "650 STREAM 7 NEW 0 www.example.com:443").1).streams "7" =
      some { id := "7", target := "www.example.com:443", bytesSent := 0,
             bytesReceived := 0, closed := false } ∧
    (processLine initMonitor "650 STREAM 7 NEW 0 www.example.com:443").1.activeStreams = 1 :=
  ⟨fun init toks => updateTarget_eq_lastCandidate toks init, by decide, by decide⟩

/-- C8: a syntactically malformed integer token decodes to 0 and the
bandwidth line is still processed; Scenario 5: "650 STREAM_BW 7 abc 250"
on open stream "7" leaves `bytesSent` at 0 and raises `bytesReceived`
to 250. -/
theorem c8_malformed_int_zero :
    (∀ tok : String, intSyntaxOk tok = false → goParseInt64 tok = 0) ∧
    intSyntaxOk "abc" = false ∧
    ((findStream ((processLine (processLine initMonitor "650 STREAM 7 NEW").1
        "650 STREAM_BW 7 abc 250").1).streams "7").getD (freshStream "7")).bytesSent = 0 ∧
    ((findStream ((processLine (processLine initMonitor "650 STREAM 7 NEW").1
        "650 STREAM_BW 7 abc 250").1).streams "7").getD (freshStream "7")).bytesReceived = 250 := by
  refine ⟨?_, by decide, by decide, by decide⟩
  intro tok h
  unfold intSyntaxOk at h
  unfold goParseInt64
  cases hc : goParseInt64Core tok with
  | none => rfl
  | some v => rw [hc] at h; simp at h

/-- C8 witness: the malformed token "abc" decodes to 0. -/
theorem c8_witness : goParseInt64 "abc" = 0 :=
  c8_malformed_int_zero.1 "abc" (by decide)

/-- C9: a bandwidth event whose id is absent from the registry leaves
the whole monitor state unchanged (per-stream, lifetime and windowed
counters included) — the sample is silently discarded. -/
theorem c9_unknown_id_noop (st : MonitorState) (parts : List String)
    (habs : findStream st.streams (parts.getD 2 "") = none) :
    handleStreamBWParts st parts = st := by
  unfold handleStreamBWParts
  by_cases hlen : parts.length < 5
  · simp [hlen]
  · simp only [hlen, if_false, habs]

/-- C9 witness: Scenario 4 — a sample for the never-opened id "99"
while stream "7" is open changes nothing. -/
theorem c9_witness :
    findStream ((processLine initMonitor "650 STREAM 7 NEW").1).streams
      ((goFields "650 STREAM_BW 99 100 250").getD 2 "") = none ∧
    handleStreamBWParts (processLine initMonitor "650 STREAM 7 NEW").1
      (goFields "650 STREAM_BW 99 100 250") = (processLine initMonitor "650 STREAM 7 NEW").1 :=
  ⟨by decide, c9_unknown_id_noop _ _ (by decide)⟩

/-- C10: a terminal status notification (CLOSED or FAILED) for an id
absent from the registry creates a fresh record, bumps the lifetime
and windowed opened counters, finalizes it within the same event
(exactly one finalization summary) and removes it: the registry and
`activeStreams` end at their pre-event values with the lifetime stream
count one higher. -/
theorem c10_terminal_absent_opens_and_finalizes (st : MonitorState) (parts : List String)
    (hlen : ¬ parts.length < 4)
    (hterm : parts.getD 3 "" = "CLOSED" ∨ parts.getD 3 "" = "FAILED")
    (habs : findStream st.streams (parts.getD 2 "") = none) :
    (handleStreamParts st parts).1.streams = st.streams ∧
    (handleStreamParts st parts).1.activeStreams = st.activeStreams ∧
    (handleStreamParts st parts).1.totalStreams = st.totalStreams + 1 ∧
    (handleStreamParts st parts).1.statsStreamsTotal = st.statsStreamsTotal + 1 ∧
    (handleStreamParts st parts).1.reportStreamsTotal = st.reportStreamsTotal + 1 ∧
    countFinish (handleStreamParts st parts).2 = 1 := by
  rw [handleStreamParts_terminal_absent st parts hlen hterm habs]
  refine ⟨rfl, rfl, rfl, rfl, rfl, ?_⟩
  simp [countFinish]

/-- C10 witness: the FAILED notification for never-seen id "9" from
the initial state. -/
theorem c10_witness :
    (handleStreamParts initMonitor (goFields "650 STREAM 9 FAILED")).1.streams =
      initMonitor.streams ∧
    (handleStreamParts initMonitor (goFields "650 STREAM 9 FAILED")).1.activeStreams =
      initMonitor.activeStreams ∧
    (handleStreamParts initMonitor (goFields "650 STREAM 9 FAILED")).1.totalStreams =
      initMonitor.totalStreams + 1 ∧
    (handleStreamParts initMonitor (goFields "650 STREAM 9 FAILED")).1.statsStreamsTotal =
      initMonitor.statsStreamsTotal + 1 ∧
    (handleStreamParts initMonitor (goFields "650 STREAM 9 FAILED")).1.reportStreamsTotal =
      initMonitor.reportStreamsTotal + 1 ∧
    countFinish (handleStreamParts initMonitor (goFields "650 STREAM 9 FAILED")).2 = 1 :=
  c10_terminal_absent_opens_and_finalizes initMonitor (goFields "650 STREAM 9 FAILED")
    (by decide) (Or.inr (by decide)) (by decide)
